import Mathlib

/-!
Verification development for the `interprompt` prompt-template library
(`src/interprompt/promt_template.py`).

The Python module is shallowly embedded: classes become structures, Python
dicts become insertion-ordered association lists (matching CPython dict
semantics: overwriting keeps the original position, fresh keys are appended),
and raising code returns `Except PromptError`.

The external template-expression engine (`jinja_template.py`, which is not
part of the sources) is modelled from the spec where needed; the model
definitions say so in their doc comment.
-/

set_option autoImplicit false

/-- Errors raised by the Python code (KeyError / ValueError / RuntimeError
with the indicated messages), by kind. -/
inductive PromptError where
  | duplicateLanguage (lang name : String)
  | languageNotFound (lang name : String)
  | noItemsRegistered (name : String)
  | defaultNotFound (lang name : String)
  | forbiddenParams (name : String)
  | parameterMismatch (name : String)
  | uninitialized (name : String)
  | entityNotFound (name : String)
  | missingPromptsKey (filename : String)
  | malformedSource (filename key : String)
  | missingVariable (param : String)
deriving DecidableEq

deriving instance DecidableEq for Except

/-- `DEFAULT_LANG_CODE` from the source. -/
def DEFAULT_LANG_CODE : String := "default"

/-- `LanguageFallbackMode`: what to do if there is no item for the given language. -/
inductive LanguageFallbackMode where
  | any
  | exception
  | use_default_lang
deriving DecidableEq

/-- Lookup in an insertion-ordered association list (Python `d[k]` / `d.get(k)`). -/
def assoc_get {T : Type} (k : String) : List (String × T) → Option T
  | [] => none
  | (k', v) :: rest => if k = k' then some v else assoc_get k rest

/-- Python dict assignment `d[k] = v`: replace in place if the key exists,
otherwise append at the end. -/
def dict_insert {T : Type} (k : String) (v : T) : List (String × T) → List (String × T)
  | [] => [(k, v)]
  | (k', v') :: rest => if k = k' then (k, v) :: rest else (k', v') :: dict_insert k v rest

/-- Python whitespace characters handled by `str.strip()` (ASCII range). -/
def is_python_space (c : Char) : Bool :=
  c = ' ' || c = '\t' || c = '\n' || c = '\r' || c = '\x0b' || c = '\x0c'

/-- `str.strip()` on the underlying character list: drop whitespace from both ends. -/
def strip_chars (l : List Char) : List Char :=
  ((l.dropWhile is_python_space).reverse.dropWhile is_python_space).reverse

/-- Python `s.strip()`. -/
def python_strip (s : String) : String :=
  String.mk (strip_chars s.data)

/-- One segment of a parsed template body: a literal character or a
placeholder variable. -/
inductive TemplateSeg where
  | lit (c : Char)
  | var (name : String)
deriving DecidableEq

/-- Variable name of a segment, if it is a placeholder. -/
def TemplateSeg.var_name : TemplateSeg → Option String
  | .lit _ => none
  | .var n => some n

/-- Name collected inside a placeholder (jinja trims the spaces in
a placeholder such as a name surrounded by blanks). -/
def scan_var_name (acc : List Char) : String :=
  python_strip (String.mk acc.reverse)

/-- Modelled from the spec: scanner for the `\x7b\x7bparam\x7d\x7d` placeholder syntax of the
external template-expression engine (`jinja_template.py`, not part of the
sources). The first argument is true while inside a placeholder, the second
accumulates the placeholder name in reverse. -/
def scan_aux : Bool → List Char → List Char → List TemplateSeg
  | true, acc, [] => [TemplateSeg.var (scan_var_name acc)]
  | false, _, [] => []
  | true, acc, '\x7d' :: '\x7d' :: rest => TemplateSeg.var (scan_var_name acc) :: scan_aux false [] rest
  | true, acc, c :: rest => scan_aux true (c :: acc) rest
  | false, _, '\x7b' :: '\x7b' :: rest => scan_aux true [] rest
  | false, acc, c :: rest => TemplateSeg.lit c :: scan_aux false acc rest

/-- Parse a template body into segments. -/
def scan_template (cs : List Char) : List TemplateSeg :=
  scan_aux false [] cs

/-- Modelled from the spec: the external template-expression engine
(`jinja_template.py`, not part of the sources) is a black box wrapping one
template string and offering rendering plus parameter extraction. -/
structure JinjaTemplate where
  template_string : String
deriving DecidableEq

/-- Modelled from the spec: the canonical parameter set of a template body,
namely the set of free variable names the body references. -/
def JinjaTemplate.get_parameters (t : JinjaTemplate) : Finset String :=
  ((scan_template t.template_string.data).filterMap TemplateSeg.var_name).toFinset

/-- Variable bindings of a render call: the keyword-argument dictionary,
modelled by its lookup function. -/
def Bindings : Type := String → Option String

/-- Substitute bindings into parsed segments; a referenced variable missing
from the bindings surfaces as a rendering error. -/
def render_segs (vars : Bindings) : List TemplateSeg → Except PromptError (List Char)
  | [] => Except.ok []
  | TemplateSeg.lit c :: rest => (render_segs vars rest).map (fun l => c :: l)
  | TemplateSeg.var n :: rest =>
    match vars n with
    | none => Except.error (PromptError.missingVariable n)
    | some v => (render_segs vars rest).map (fun l => v.data ++ l)

/-- Modelled from the spec: `render(vars) -> string` of the external engine. -/
def JinjaTemplate.render (t : JinjaTemplate) (vars : Bindings) :
    Except PromptError String :=
  (render_segs vars (scan_template t.template_string.data)).map String.mk

/-- `PromptTemplate`: a named template; the constructor strips the template string. -/
structure PromptTemplate where
  name : String
  jinja_template : JinjaTemplate
deriving DecidableEq

/-- `PromptTemplate.__init__`: stores `JinjaTemplate(jinja_template_string.strip())`. -/
def PromptTemplate.make (name jinja_template_string : String) : PromptTemplate :=
  ⟨name, ⟨python_strip jinja_template_string⟩⟩

/-- `PromptTemplate.render`. -/
def PromptTemplate.render (t : PromptTemplate) (kwargs : Bindings) :
    Except PromptError String :=
  t.jinja_template.render kwargs

/-- `PromptTemplate.get_parameters`. -/
def PromptTemplate.get_parameters (t : PromptTemplate) : Finset String :=
  t.jinja_template.get_parameters

/-- `PromptList`: an ordered list of strings. -/
structure PromptList where
  items : List String
deriving DecidableEq

/-- `PromptList.__init__`: strips every item. -/
def PromptList.make (items : List String) : PromptList :=
  ⟨items.map python_strip⟩

/-- Replace every newline by a newline followed by the indent
(`x.replace` applied to the one-character newline pattern). -/
def replace_newlines (indent : List Char) : List Char → List Char
  | [] => []
  | '\n' :: rest => '\n' :: (indent ++ replace_newlines indent rest)
  | c :: rest => c :: replace_newlines indent rest

/-- Python `sep.join(items)`. -/
def join_with (sep : String) : List String → String
  | [] => ""
  | [x] => x
  | x :: y :: rest => x ++ sep ++ join_with sep (y :: rest)

/-- `PromptList.to_string`: the bullet/indent layout of the source, joining the
items with a newline followed by the bullet. -/
def PromptList.to_string (pl : PromptList) : String :=
  let bullet : String := " * "
  let indent : String := String.mk (List.replicate bullet.length ' ')
  let items := pl.items.map (fun x => String.mk (replace_newlines indent.data x.data))
  join_with "\n * " items

/-- `_MultiLangContainer`: a named mapping from language codes to items,
with Python dict insertion order. -/
structure MultiLangContainer (T : Type) where
  name : String
  lang2item : List (String × T)
deriving DecidableEq

/-- `_MultiLangContainer.add_item`: raises a duplicate-language KeyError when
the language is already registered and overwriting is not allowed. -/
def MultiLangContainer.add_item {T : Type} (c : MultiLangContainer T) (item : T)
    (lang_code : String) (allow_overwrite : Bool) :
    Except PromptError (MultiLangContainer T) :=
  if !allow_overwrite && (assoc_get lang_code c.lang2item).isSome then
    Except.error (PromptError.duplicateLanguage lang_code c.name)
  else
    Except.ok ⟨c.name, dict_insert lang_code item c.lang2item⟩

/-- `_MultiLangContainer.get_item`: exact lookup, then the fallback policy. -/
def MultiLangContainer.get_item {T : Type} (c : MultiLangContainer T) (lang : String)
    (fallback_mode : LanguageFallbackMode) : Except PromptError T :=
  match assoc_get lang c.lang2item with
  | some t => Except.ok t
  | none =>
    match fallback_mode with
    | LanguageFallbackMode.exception => Except.error (PromptError.languageNotFound lang c.name)
    | LanguageFallbackMode.any =>
      match c.lang2item with
      | [] => Except.error (PromptError.noItemsRegistered c.name)
      | (_, t) :: _ => Except.ok t
    | LanguageFallbackMode.use_default_lang =>
      match assoc_get DEFAULT_LANG_CODE c.lang2item with
      | some t => Except.ok t
      | none => Except.error (PromptError.defaultNotFound lang c.name)

/-- `_MultiLangContainer.get_language_codes`: registered codes in insertion order. -/
def MultiLangContainer.get_language_codes {T : Type} (c : MultiLangContainer T) : List String :=
  c.lang2item.map Prod.fst

/-- `MultiLangPromptTemplate._FORBIDDEN_PARAM_NAMES`. -/
def FORBIDDEN_PARAM_NAMES : Finset String :=
  {"lang_code", "fallback_mode"}

/-- `MultiLangPromptTemplate`: a multi-language bundle of prompt templates. -/
structure MultiLangPromptTemplate where
  prompts_container : MultiLangContainer PromptTemplate
deriving DecidableEq

/-- The `name` property. -/
def MultiLangPromptTemplate.name (m : MultiLangPromptTemplate) : String :=
  m.prompts_container.name

/-- `MultiLangPromptTemplate.get_parameters`: parameters of the first registered
variant; raises when no variant is registered. -/
def MultiLangPromptTemplate.get_parameters (m : MultiLangPromptTemplate) :
    Except PromptError (Finset String) :=
  match m.prompts_container.lang2item with
  | [] => Except.error (PromptError.uninitialized m.name)
  | (_, first) :: _ => Except.ok first.get_parameters

/-- `MultiLangPromptTemplate.add_prompt_template`: checks the reserved
parameter names, then (when a variant already exists) parameter consistency
with the first variant, then delegates to the container insertion. -/
def MultiLangPromptTemplate.add_prompt_template (m : MultiLangPromptTemplate)
    (prompt_template : PromptTemplate) (lang_code : String) (allow_overwrite : Bool) :
    Except PromptError MultiLangPromptTemplate :=
  let incoming_parameters := prompt_template.get_parameters
  if FORBIDDEN_PARAM_NAMES ∩ incoming_parameters ≠ ∅ then
    Except.error (PromptError.forbiddenParams m.name)
  else
    match m.prompts_container.lang2item with
    | [] =>
      (m.prompts_container.add_item prompt_template lang_code allow_overwrite).map
        (fun c => ⟨c⟩)
    | (_, first) :: _ =>
      if first.get_parameters ≠ incoming_parameters then
        Except.error (PromptError.parameterMismatch m.name)
      else
        (m.prompts_container.add_item prompt_template lang_code allow_overwrite).map
          (fun c => ⟨c⟩)

/-- `MultiLangPromptTemplate.get_prompt_template`. -/
def MultiLangPromptTemplate.get_prompt_template (m : MultiLangPromptTemplate)
    (lang_code : String) (fallback_mode : LanguageFallbackMode) :
    Except PromptError PromptTemplate :=
  m.prompts_container.get_item lang_code fallback_mode

/-- `MultiLangPromptTemplate.render`. -/
def MultiLangPromptTemplate.render (m : MultiLangPromptTemplate) (lang_code : String)
    (fallback_mode : LanguageFallbackMode) (kwargs : Bindings) :
    Except PromptError String :=
  match m.get_prompt_template lang_code fallback_mode with
  | Except.error e => Except.error e
  | Except.ok t => t.render kwargs

/-- `MultiLangPromptList`. -/
abbrev MultiLangPromptList := MultiLangContainer PromptList

/-- A parsed YAML value, as handed over by the external structured-file
parser: a string scalar, a sequence of strings, or a nested mapping. -/
inductive Yaml where
  | str (s : String)
  | list (items : List String)
  | map (entries : List (String × Yaml))

/-- A parsed source file: its name and its parsed top-level document. -/
structure YamlFile where
  filename : String
  data : Yaml

/-- Reversed-suffix check used to model `fn.endswith(...)`:
the first argument is the reversed suffix, the second the reversed name. -/
def rev_suffix_match : List Char → List Char → Bool
  | [], _ => true
  | _ :: _, [] => false
  | p :: ps, c :: cs => p == c && rev_suffix_match ps cs

/-- Python `fn.endswith((".yml", ".yaml"))`. -/
def has_yaml_suffix (filename : String) : Bool :=
  rev_suffix_match ".yml".data.reverse filename.data.reverse ||
    rev_suffix_match ".yaml".data.reverse filename.data.reverse

/-- The mutable state built up by `PromptCollection._load_from_disc`: the two
name-indexed dictionaries. -/
structure CollectionState where
  multi_lang_prompt_templates : List (String × MultiLangPromptTemplate)
  multi_lang_prompt_lists : List (String × MultiLangPromptList)
deriving DecidableEq

/-- `PromptCollection._add_prompt_template`: get-or-create the bundle for the
name, then insert the new template (overwriting is not allowed here). -/
def CollectionState.add_prompt_template (st : CollectionState)
    (name template_str lang_code : String) : Except PromptError CollectionState :=
  let prompt_template := PromptTemplate.make name template_str
  let mlpt : MultiLangPromptTemplate :=
    match assoc_get name st.multi_lang_prompt_templates with
    | some m => m
    | none => ⟨⟨name, []⟩⟩
  (mlpt.add_prompt_template prompt_template lang_code false).map
    (fun m => { st with multi_lang_prompt_templates := dict_insert name m st.multi_lang_prompt_templates })

/-- `PromptCollection._add_prompt_list`: get-or-create the container for the
name, then insert the new list (overwriting is not allowed here). -/
def CollectionState.add_prompt_list (st : CollectionState)
    (name : String) (prompt_list : List String) (lang_code : String) :
    Except PromptError CollectionState :=
  let ml : MultiLangPromptList :=
    match assoc_get name st.multi_lang_prompt_lists with
    | some m => m
    | none => ⟨name, []⟩
  (ml.add_item (PromptList.make prompt_list) lang_code false).map
    (fun m => { st with multi_lang_prompt_lists := dict_insert name m st.multi_lang_prompt_lists })

/-- One entry of the `prompts` mapping: a sequence goes to the list index, a
string to the template index, anything else is a malformed-entry ValueError. -/
def CollectionState.add_entry (st : CollectionState) (path lang_code prompt_name : String) :
    Yaml → Except PromptError CollectionState
  | Yaml.list items => st.add_prompt_list prompt_name items lang_code
  | Yaml.str s => st.add_prompt_template prompt_name s lang_code
  | Yaml.map _ => Except.error (PromptError.malformedSource path prompt_name)

/-- Iterate over the entries of the `prompts` mapping, in order. -/
def CollectionState.add_entries (st : CollectionState) (path lang_code : String) :
    List (String × Yaml) → Except PromptError CollectionState
  | [] => Except.ok st
  | (n, v) :: rest =>
    match st.add_entry path lang_code n v with
    | Except.ok st' => st'.add_entries path lang_code rest
    | Except.error e => Except.error e

/-- The language code the loader uses for a file: `prompts_data.get` applied to
the key `lang` with the default code as fallback. Note that `prompts_data` is
the value of the `prompts` key, so a top-level `lang` field is never seen
here. A non-string value under `lang` would make the Python code fail later
when used as a dictionary key; it is modelled as an immediate load error. -/
def lang_of_prompts_data (prompts_data : List (String × Yaml)) (path : String) :
    Except PromptError String
  := match assoc_get "lang" prompts_data with
  | none => Except.ok DEFAULT_LANG_CODE
  | some (Yaml.str s) => Except.ok s
  | some _ => Except.error (PromptError.malformedSource path "lang")

/-- Load one file, as in the body of the `_load_from_disc` loop: skip files
without a YAML extension, fetch `data` at the key `prompts` (a KeyError when
missing; a top-level document that is not a mapping also fails there), read
the language code from that mapping, and insert every entry of it. -/
def CollectionState.load_file (st : CollectionState) (file : YamlFile) :
    Except PromptError CollectionState :=
  if !has_yaml_suffix file.filename then Except.ok st
  else
    match file.data with
    | Yaml.map top =>
      match assoc_get "prompts" top with
      | none => Except.error (PromptError.missingPromptsKey file.filename)
      | some (Yaml.map prompts_data) =>
        match lang_of_prompts_data prompts_data file.filename with
        | Except.error e => Except.error e
        | Except.ok lang_code => st.add_entries file.filename lang_code prompts_data
      | some _ => Except.error (PromptError.malformedSource file.filename "prompts")
    | _ => Except.error (PromptError.missingPromptsKey file.filename)

/-- `PromptCollection._load_from_disc`: fold over the directory listing. -/
def CollectionState.load_files (st : CollectionState) :
    List YamlFile → Except PromptError CollectionState
  | [] => Except.ok st
  | f :: rest =>
    match st.load_file f with
    | Except.ok st' => st'.load_files rest
    | Except.error e => Except.error e

/-- `PromptCollection`: the loaded index plus the configured fallback mode. -/
structure PromptCollection where
  multi_lang_prompt_templates : List (String × MultiLangPromptTemplate)
  multi_lang_prompt_lists : List (String × MultiLangPromptList)
  fallback_mode : LanguageFallbackMode
deriving DecidableEq

/-- `PromptCollection.__init__`: load everything from the directory snapshot,
then record the fallback mode. -/
def PromptCollection.make (files : List YamlFile) (fallback_mode : LanguageFallbackMode) :
    Except PromptError PromptCollection :=
  (CollectionState.load_files ⟨[], []⟩ files).map
    (fun st => ⟨st.multi_lang_prompt_templates, st.multi_lang_prompt_lists, fallback_mode⟩)

/-- `PromptCollection.get_prompt_template_names`. -/
def PromptCollection.get_prompt_template_names (pc : PromptCollection) : List String :=
  pc.multi_lang_prompt_templates.map Prod.fst

/-- `PromptCollection.get_prompt_list_names`. -/
def PromptCollection.get_prompt_list_names (pc : PromptCollection) : List String :=
  pc.multi_lang_prompt_lists.map Prod.fst

/-- `PromptCollection.get_multilang_prompt_template`: a plain dictionary
access, raising a KeyError for an unknown name. -/
def PromptCollection.get_multilang_prompt_template (pc : PromptCollection)
    (prompt_name : String) : Except PromptError MultiLangPromptTemplate :=
  match assoc_get prompt_name pc.multi_lang_prompt_templates with
  | none => Except.error (PromptError.entityNotFound prompt_name)
  | some m => Except.ok m

/-- `PromptCollection.get_multilang_prompt_list`. -/
def PromptCollection.get_multilang_prompt_list (pc : PromptCollection)
    (prompt_name : String) : Except PromptError MultiLangPromptList :=
  match assoc_get prompt_name pc.multi_lang_prompt_lists with
  | none => Except.error (PromptError.entityNotFound prompt_name)
  | some m => Except.ok m

/-- `PromptCollection.get_prompt_template`: resolves through the collection's
configured fallback mode. -/
def PromptCollection.get_prompt_template (pc : PromptCollection)
    (prompt_name lang_code : String) : Except PromptError PromptTemplate :=
  match pc.get_multilang_prompt_template prompt_name with
  | Except.error e => Except.error e
  | Except.ok m => m.get_prompt_template lang_code pc.fallback_mode

/-- `PromptCollection.get_prompt_template_parameters`. -/
def PromptCollection.get_prompt_template_parameters (pc : PromptCollection)
    (prompt_name : String) : Except PromptError (Finset String) :=
  match pc.get_multilang_prompt_template prompt_name with
  | Except.error e => Except.error e
  | Except.ok m => m.get_parameters

/-- `PromptCollection.get_prompt_list`: the source calls `get_item` with the
language code only, so `get_item` runs with its own default fallback mode
(exception) and the collection's configured fallback mode is not consulted. -/
def PromptCollection.get_prompt_list (pc : PromptCollection)
    (prompt_name lang_code : String) : Except PromptError PromptList :=
  match pc.get_multilang_prompt_list prompt_name with
  | Except.error e => Except.error e
  | Except.ok ml => ml.get_item lang_code LanguageFallbackMode.exception

/-- `PromptCollection.render_prompt_template`. -/
def PromptCollection.render_prompt_template (pc : PromptCollection)
    (prompt_name lang_code : String) (kwargs : Bindings) :
    Except PromptError String :=
  match pc.get_prompt_template prompt_name lang_code with
  | Except.error e => Except.error e
  | Except.ok t => t.render kwargs

/-- `PromptFactoryBase`: the configured language code plus the collection
loaded in its constructor. -/
structure PromptFactoryBase where
  lang_code : String
  prompt_collection : PromptCollection
deriving DecidableEq

/-- `PromptFactoryBase.__init__`. -/
def PromptFactoryBase.make (files : List YamlFile) (lang_code : String)
    (fallback_mode : LanguageFallbackMode) : Except PromptError PromptFactoryBase :=
  (PromptCollection.make files fallback_mode).map (fun pc => ⟨lang_code, pc⟩)

/-- `PromptFactoryBase._render_prompt`: delegate to the collection's renderer
with the factory's configured language code. -/
def PromptFactoryBase.render_prompt (f : PromptFactoryBase) (prompt_name : String)
    (kwargs : Bindings) : Except PromptError String :=
  f.prompt_collection.render_prompt_template prompt_name f.lang_code kwargs

/-- `PromptFactoryBase._get_prompt_list`. -/
def PromptFactoryBase.get_prompt_list_by_name (f : PromptFactoryBase) (prompt_name : String) :
    Except PromptError PromptList :=
  f.prompt_collection.get_prompt_list prompt_name f.lang_code

/-- The (name, parameter set) signatures collected by the generation loop of
`autogenerate_prompt_factory_module` over the given collection's registered
template names. The emitted signature lists the canonical parameters in the
order of the external engine's parameter list; the parameters are
keyword-only, so only the set is meaningful and only it is modelled. -/
def collect_methods (pc : PromptCollection) :
    List String → Except PromptError (List (String × Finset String))
  | [] => Except.ok []
  | n :: rest =>
    match pc.get_prompt_template_parameters n with
    | Except.error e => Except.error e
    | Except.ok ps =>
      match collect_methods pc rest with
      | Except.error e => Except.error e
      | Except.ok tail => Except.ok ((n, ps) :: tail)

/-- The generated accessor signatures of `autogenerate_prompt_factory_module`:
one `create_` method per registered template name, carrying exactly the
template's canonical parameters. -/
def autogenerated_template_methods (pc : PromptCollection) :
    Except PromptError (List (String × Finset String)) :=
  collect_methods pc pc.get_prompt_template_names

/-- Modelled from the spec: the runtime behavior of one generated
`create_<name>` accessor. The generated module itself is a build artifact
outside the sources; its emitted body accepts exactly the keyword-only
parameters of its signature, builds the keyword dictionary binding each
parameter `p` of the signature to the caller's value for `p`, and calls
`self._render_prompt("<name>", p=p, ...)`. -/
def generated_create_method (f : PromptFactoryBase) (template_name : String)
    (method_params : Finset String) (args : String → String) : Except PromptError String :=
  f.render_prompt template_name (fun x => if x ∈ method_params then some (args x) else none)

/-! ### Helper lemmas about the association-list dictionary model -/

theorem assoc_get_dict_insert_self {T : Type} (k : String) (v : T) (l : List (String × T)) :
    assoc_get k (dict_insert k v l) = some v := by
  induction l with
  | nil => simp [dict_insert, assoc_get]
  | cons kv rest ih =>
    obtain ⟨k', v'⟩ := kv
    by_cases h : k = k'
    · simp [dict_insert, assoc_get, h]
    · simp [dict_insert, assoc_get, h, ih]

theorem assoc_get_dict_insert_ne {T : Type} {k k' : String} (h : k ≠ k') (v : T)
    (l : List (String × T)) : assoc_get k (dict_insert k' v l) = assoc_get k l := by
  induction l with
  | nil => simp [dict_insert, assoc_get, h]
  | cons kv rest ih =>
    obtain ⟨k'', v''⟩ := kv
    by_cases h2 : k' = k''
    · subst h2
      simp [dict_insert, assoc_get, h]
    · by_cases h3 : k = k''
      · simp [dict_insert, assoc_get, h2, h3]
      · simp [dict_insert, assoc_get, h2, h3, ih]

theorem assoc_get_mem_values {T : Type} {k : String} {v : T} {l : List (String × T)}
    (h : assoc_get k l = some v) : v ∈ l.map Prod.snd := by
  induction l with
  | nil => simp [assoc_get] at h
  | cons kv rest ih =>
    obtain ⟨k', v'⟩ := kv
    by_cases hk : k = k'
    · simp [assoc_get, hk] at h
      simp [h]
    · simp [assoc_get, hk] at h
      simp [ih h]

theorem add_item_ok_lookup {T : Type} {c c' : MultiLangContainer T} {i : T} {L : String}
    {ao : Bool} (h : c.add_item i L ao = Except.ok c') :
    assoc_get L c'.lang2item = some i := by
  unfold MultiLangContainer.add_item at h
  split at h
  · cases h
  · cases h
    exact assoc_get_dict_insert_self L i c.lang2item

theorem add_item_ok_lookup_ne {T : Type} {c c' : MultiLangContainer T} {i : T} {l L : String}
    {ao : Bool} (h : c.add_item i l ao = Except.ok c') (hne : L ≠ l) :
    assoc_get L c'.lang2item = assoc_get L c.lang2item := by
  unfold MultiLangContainer.add_item at h
  split at h
  · cases h
  · cases h
    exact assoc_get_dict_insert_ne hne i c.lang2item

theorem add_item_ok_name {T : Type} {c c' : MultiLangContainer T} {i : T} {L : String}
    {ao : Bool} (h : c.add_item i L ao = Except.ok c') : c'.name = c.name := by
  unfold MultiLangContainer.add_item at h
  split at h
  · cases h
  · cases h
    rfl

/-! ### C1 -/

/-- The directory of the end-to-end scenario: `a.yaml` with a top-level `lang`
field set to `en`, and `b.yaml` with a top-level `lang` field set to `fr`. -/
def C1_file_a : YamlFile :=
  ⟨"a.yaml", Yaml.map [("lang", Yaml.str "en"),
    ("prompts", Yaml.map [("greet", Yaml.str "Hello \x7b\x7bname\x7d\x7d")])]⟩

/-- The second file of the scenario. -/
def C1_file_b : YamlFile :=
  ⟨"b.yaml", Yaml.map [("lang", Yaml.str "fr"),
    ("prompts", Yaml.map [("greet", Yaml.str "Bonjour \x7b\x7bname\x7d\x7d")])]⟩

/-- C1: the loader reads the language code with `prompts_data.get` — that is,
from inside the `prompts` mapping — so the top-level `lang` fields of the
scenario are never seen, both files land under the default language code, and
construction of the collection fails with a duplicate-language error instead
of succeeding as the claim (and the class's own docstring) states. The same
error arises in either file order. -/
theorem C1_top_level_lang_ignored :
    PromptCollection.make [C1_file_a, C1_file_b] LanguageFallbackMode.exception =
      Except.error (PromptError.duplicateLanguage "default" "greet") ∧
    PromptCollection.make [C1_file_b, C1_file_a] LanguageFallbackMode.exception =
      Except.error (PromptError.duplicateLanguage "default" "greet") := by
  constructor
  · decide
  · decide

/-! ### C2 -/

/-- A file defining one prompt list under the default language code. -/
def C2_file : YamlFile :=
  ⟨"t.yaml", Yaml.map [("prompts", Yaml.map [("tips", Yaml.list ["Be kind", "Be brief"])])]⟩

/-- The collection loaded from that file with the `ANY` fallback mode. -/
def C2_pc_any : PromptCollection :=
  ⟨[], [("tips", ⟨"tips", [("default", PromptList.make ["Be kind", "Be brief"])]⟩)],
    LanguageFallbackMode.any⟩

/-- The same collection with the `USE_DEFAULT_LANG` fallback mode. -/
def C2_pc_default : PromptCollection :=
  ⟨[], [("tips", ⟨"tips", [("default", PromptList.make ["Be kind", "Be brief"])]⟩)],
    LanguageFallbackMode.use_default_lang⟩

/-- C2: `get_prompt_list` does not resolve through the collection's configured
fallback mode: the source calls `get_item` without passing `fallback_mode`, so
the item lookup always runs in exception mode. On a loaded collection holding
the list `tips` under the default code, the query for `fr` fails with a
language-not-found error both under `ANY` and under `USE_DEFAULT_LANG` with a
default entry present, where the claim requires a registered list to be
returned. -/
theorem C2_get_prompt_list_ignores_fallback :
    PromptCollection.make [C2_file] LanguageFallbackMode.any = Except.ok C2_pc_any ∧
    C2_pc_any.get_prompt_list "tips" "fr" =
      Except.error (PromptError.languageNotFound "fr" "tips") ∧
    PromptCollection.make [C2_file] LanguageFallbackMode.use_default_lang =
      Except.ok C2_pc_default ∧
    C2_pc_default.get_prompt_list "tips" "fr" =
      Except.error (PromptError.languageNotFound "fr" "tips") := by
  refine ⟨by decide, by decide, by decide, by decide⟩

/-! ### C4 -/

/-- C4: `to_string` joins the items with a newline followed by the bullet, so
the first item is not bullet-prefixed: the scenario input renders to the
string starting directly with the first item, not to the claimed output whose
first item carries the bullet. -/
theorem C4_to_string_first_item_unprefixed :
    (PromptList.make ["Be kind", "Be brief"]).to_string = "Be kind\n * Be brief" ∧
    (PromptList.make ["Be kind", "Be brief"]).to_string ≠ " * Be kind\n * Be brief" := by
  refine ⟨by decide, by decide⟩

/-! ### C5 -/

/-- C5: after a successful insertion under a language code, inserting again
under the same code without overwrite always fails with the duplicate-language
error and the first item stays retrievable; with overwrite allowed the second
insertion succeeds, after which the code maps to the second item and every
lookup of that code returns it. -/
theorem C5_duplicate_and_overwrite {T : Type} (c c₁ : MultiLangContainer T) (i1 i2 : T)
    (L : String) (h : c.add_item i1 L false = Except.ok c₁) :
    c₁.add_item i2 L false = Except.error (PromptError.duplicateLanguage L c₁.name) ∧
    c₁.get_item L LanguageFallbackMode.exception = Except.ok i1 ∧
    ∃ c₂, c₁.add_item i2 L true = Except.ok c₂ ∧
      assoc_get L c₂.lang2item = some i2 ∧
      ∀ fm, c₂.get_item L fm = Except.ok i2 := by
  have hlook : assoc_get L c₁.lang2item = some i1 := add_item_ok_lookup h
  refine ⟨?_, ?_, ?_⟩
  · unfold MultiLangContainer.add_item
    rw [hlook]
    simp
  · unfold MultiLangContainer.get_item
    rw [hlook]
  · refine ⟨⟨c₁.name, dict_insert L i2 c₁.lang2item⟩, ?_, ?_, ?_⟩
    · unfold MultiLangContainer.add_item
      simp
    · exact assoc_get_dict_insert_self L i2 c₁.lang2item
    · intro fm
      unfold MultiLangContainer.get_item
      rw [assoc_get_dict_insert_self]

/-- Witness for C5 at a concrete container. -/
theorem C5_witness :
    (MultiLangContainer.mk "tips" ([] : List (String × String))).add_item "hello" "en" false =
      Except.ok ⟨"tips", [("en", "hello")]⟩ ∧
    (MultiLangContainer.mk "tips" [("en", "hello")]).add_item "hi" "en" false =
      Except.error (PromptError.duplicateLanguage "en" "tips") := by
  refine ⟨by decide, ?_⟩
  exact (C5_duplicate_and_overwrite (MultiLangContainer.mk "tips" []) ⟨"tips", [("en", "hello")]⟩
    "hello" "hi" "en" (by decide)).1

/-! ### C6 -/

/-- A sequence of insertions, each aborting the run on failure. -/
def run_adds {T : Type} (c : MultiLangContainer T) :
    List (T × String × Bool) → Except PromptError (MultiLangContainer T)
  | [] => Except.ok c
  | (i, l, ao) :: rest =>
    match c.add_item i l ao with
    | Except.ok c' => run_adds c' rest
    | Except.error e => Except.error e

theorem run_adds_lookup_ne {T : Type} (L : String) (ops : List (T × String × Bool))
    (hops : ∀ op ∈ ops, op.2.1 ≠ L) :
    ∀ (c c₂ : MultiLangContainer T), run_adds c ops = Except.ok c₂ →
      assoc_get L c₂.lang2item = assoc_get L c.lang2item := by
  induction ops with
  | nil =>
    intro c c₂ h
    cases h
    rfl
  | cons op rest ih =>
    intro c c₂ h
    obtain ⟨i, l, ao⟩ := op
    unfold run_adds at h
    cases hadd : c.add_item i l ao with
    | error e => rw [hadd] at h; cases h
    | ok c' =>
      rw [hadd] at h
      have hl : l ≠ L := hops (i, l, ao) (List.mem_cons_self _ _)
      have hrest : ∀ op ∈ rest, op.2.1 ≠ L := fun op hop => hops op (List.mem_cons_of_mem _ hop)
      rw [ih hrest c' c₂ h]
      exact add_item_ok_lookup_ne hadd (Ne.symm hl)

/-- C6: inserting an item under a language code and then performing any run of
further successful insertions under other codes leaves the lookup of that code
in strict (exception) mode returning exactly the inserted item. -/
theorem C6_add_get_roundtrip {T : Type} (c c₁ c₂ : MultiLangContainer T) (i : T) (L : String)
    (ao : Bool) (ops : List (T × String × Bool))
    (h1 : c.add_item i L ao = Except.ok c₁)
    (hops : ∀ op ∈ ops, op.2.1 ≠ L)
    (h2 : run_adds c₁ ops = Except.ok c₂) :
    c₂.get_item L LanguageFallbackMode.exception = Except.ok i := by
  have : assoc_get L c₂.lang2item = some i := by
    rw [run_adds_lookup_ne L ops hops c₁ c₂ h2]
    exact add_item_ok_lookup h1
  unfold MultiLangContainer.get_item
  rw [this]

/-- Witness for C6: insert under `en`, then under `fr` and `de`, and read
back the `en` item. -/
theorem C6_witness :
    (MultiLangContainer.mk "greet" [("fr", "bonjour"), ("en", "hello"), ("de", "hallo")]).get_item
      "en" LanguageFallbackMode.exception = Except.ok "hello" := by
  exact C6_add_get_roundtrip (MultiLangContainer.mk "greet" [("fr", "bonjour")])
    ⟨"greet", [("fr", "bonjour"), ("en", "hello")]⟩
    ⟨"greet", [("fr", "bonjour"), ("en", "hello"), ("de", "hallo")]⟩
    "hello" "en" false [("hallo", "de", false)]
    (by decide) (by decide) (by decide)

/-! ### C7 -/

/-- C7: the `ANY` fallback fails exactly on the empty container; any returned
item is a member of the container, and it is the exact match whenever the
requested language is registered. -/
theorem C7_any_fallback {T : Type} (c : MultiLangContainer T) (lang : String) :
    ((∃ e, c.get_item lang LanguageFallbackMode.any = Except.error e) ↔ c.lang2item = []) ∧
    (∀ t, c.get_item lang LanguageFallbackMode.any = Except.ok t →
      t ∈ c.lang2item.map Prod.snd ∧
      ∀ t', assoc_get lang c.lang2item = some t' → t = t') := by
  unfold MultiLangContainer.get_item
  cases ha : assoc_get lang c.lang2item with
  | some t0 =>
    have hne : c.lang2item ≠ [] := by
      intro hnil
      rw [hnil] at ha
      simp [assoc_get] at ha
    constructor
    · constructor
      · rintro ⟨e, he⟩
        exact Except.noConfusion he
      · intro hnil
        exact absurd hnil hne
    · intro t ht
      have htt : t0 = t := by injection ht
      subst htt
      constructor
      · exact assoc_get_mem_values ha
      · intro t' ht'
        exact Option.some.inj ht'
  | none =>
    cases hc : c.lang2item with
    | nil =>
      constructor
      · constructor
        · intro _
          rfl
        · intro _
          exact ⟨PromptError.noItemsRegistered c.name, rfl⟩
      · intro t ht
        exact Except.noConfusion ht
    | cons hd tl =>
      obtain ⟨l0, t0⟩ := hd
      constructor
      · constructor
        · rintro ⟨e, he⟩
          exact Except.noConfusion he
        · intro hnil
          exact List.noConfusion hnil
      · intro t ht
        have htt : t0 = t := by injection ht
        subst htt
        constructor
        · simp
        · intro t' ht'
          exact Option.noConfusion ht'

/-- Witness for C7: a non-empty container under the `ANY` fallback returns a
member for an unregistered language. -/
theorem C7_witness :
    "hello" ∈ ([("en", "hello")].map Prod.snd) ∧
    ((∃ e, (MultiLangContainer.mk "greet" ([] : List (String × String))).get_item "fr"
        LanguageFallbackMode.any = Except.error e) ↔
      ([] : List (String × String)) = []) :=
  ⟨((C7_any_fallback (MultiLangContainer.mk "greet" [("en", "hello")]) "fr").2 "hello"
      (by decide)).1,
    (C7_any_fallback (MultiLangContainer.mk "greet" []) "fr").1⟩

/-! ### C8 -/

theorem add_item_not_forbidden {T : Type} (c : MultiLangContainer T) (i : T) (l : String)
    (ao : Bool) (nm : String) :
    c.add_item i l ao ≠ Except.error (PromptError.forbiddenParams nm) := by
  unfold MultiLangContainer.add_item
  split
  · intro h
    injection h with h'
    exact PromptError.noConfusion h'
  · intro h
    exact Except.noConfusion h

theorem except_map_error_iff {α β ε : Type} (f : α → β) (x : Except ε α) (e : ε) :
    Except.map f x = Except.error e ↔ x = Except.error e := by
  cases x with
  | error e' => simp [Except.map]
  | ok a => simp [Except.map]

/-- C8: adding a template whose parameter set meets the reserved control
parameter names always fails with the reserved-parameter error, for every
language code, overwrite flag and prior container content; a template without
such a parameter never produces that error. -/
theorem C8_reserved_params (m : MultiLangPromptTemplate) (pt : PromptTemplate)
    (lang_code : String) (ao : Bool) :
    ((∃ p, p ∈ pt.get_parameters ∧ p ∈ FORBIDDEN_PARAM_NAMES) →
      m.add_prompt_template pt lang_code ao = Except.error (PromptError.forbiddenParams m.name)) ∧
    ((∀ p, p ∈ pt.get_parameters → p ∉ FORBIDDEN_PARAM_NAMES) →
      ∀ nm, m.add_prompt_template pt lang_code ao ≠ Except.error (PromptError.forbiddenParams nm)) := by
  constructor
  · rintro ⟨p, hp, hf⟩
    have hne : FORBIDDEN_PARAM_NAMES ∩ pt.get_parameters ≠ ∅ := by
      intro hempty
      have : p ∈ FORBIDDEN_PARAM_NAMES ∩ pt.get_parameters := Finset.mem_inter.mpr ⟨hf, hp⟩
      rw [hempty] at this
      exact absurd this (Finset.not_mem_empty p)
    unfold MultiLangPromptTemplate.add_prompt_template
    rw [if_pos hne]
  · intro hnone nm
    have hempty : FORBIDDEN_PARAM_NAMES ∩ pt.get_parameters = ∅ := by
      apply Finset.eq_empty_iff_forall_not_mem.mpr
      intro p hp
      obtain ⟨hf, hmem⟩ := Finset.mem_inter.mp hp
      exact hnone p hmem hf
    unfold MultiLangPromptTemplate.add_prompt_template
    rw [if_neg (by simp [hempty])]
    split
    · intro h
      rw [except_map_error_iff] at h
      exact add_item_not_forbidden _ _ _ _ _ h
    · split
      · intro h
        injection h with h'
        exact PromptError.noConfusion h'
      · intro h
        rw [except_map_error_iff] at h
        exact add_item_not_forbidden _ _ _ _ _ h

/-- Witness for C8: a template referencing the reserved name is rejected. -/
theorem C8_witness :
    MultiLangPromptTemplate.add_prompt_template ⟨⟨"greet", []⟩⟩
      (PromptTemplate.make "greet" "x \x7b\x7blang_code\x7d\x7d") "en" false =
      Except.error (PromptError.forbiddenParams "greet") := by
  exact (C8_reserved_params ⟨⟨"greet", []⟩⟩
    (PromptTemplate.make "greet" "x \x7b\x7blang_code\x7d\x7d") "en" false).1
    ⟨"lang_code", by decide, by decide⟩

/-! ### C3 -/

/-- The first scenario variant, parameter set consisting of the name. -/
def C3_pt1 : PromptTemplate := PromptTemplate.make "greet" "Hello \x7b\x7bname\x7d\x7d"

/-- A second variant with the identical parameter set. -/
def C3_pt2 : PromptTemplate := PromptTemplate.make "greet" "Hi \x7b\x7bname\x7d\x7d"

/-- A bundle already holding the first variant, as produced by adding it to an
empty bundle. -/
def C3_m1 : MultiLangPromptTemplate := ⟨⟨"greet", [("en", C3_pt1)]⟩⟩

/-- C3 counterexample: a bundle that already has one variant, and a new
variant whose parameter set is equal to the first variant's, for which the
addition nevertheless fails (with the duplicate-language error, since the
language code is already registered): equality of the parameter sets is not
sufficient for success, refuting the claimed equivalence. -/
theorem C3_counterexample :
    MultiLangPromptTemplate.add_prompt_template ⟨⟨"greet", []⟩⟩ C3_pt1 "en" false =
      Except.ok C3_m1 ∧
    C3_pt2.get_parameters = C3_pt1.get_parameters ∧
    C3_m1.add_prompt_template C3_pt2 "en" false =
      Except.error (PromptError.duplicateLanguage "en" "greet") := by
  refine ⟨by decide, by decide, by decide⟩

theorem add_prompt_template_cons (m : MultiLangPromptTemplate) (l0 : String)
    (first : PromptTemplate) (rest : List (String × PromptTemplate)) (pt : PromptTemplate)
    (lang_code : String) (ao : Bool)
    (hst : m.prompts_container.lang2item = (l0, first) :: rest)
    (hfb : FORBIDDEN_PARAM_NAMES ∩ pt.get_parameters = ∅) :
    m.add_prompt_template pt lang_code ao =
      if first.get_parameters ≠ pt.get_parameters then
        Except.error (PromptError.parameterMismatch m.name)
      else (m.prompts_container.add_item pt lang_code ao).map (fun c => ⟨c⟩) := by
  unfold MultiLangPromptTemplate.add_prompt_template
  rw [if_neg (by simp [hfb]), hst]

theorem add_item_eq {T : Type} (c : MultiLangContainer T) (i : T) (l : String) (ao : Bool) :
    c.add_item i l ao =
      if !ao && (assoc_get l c.lang2item).isSome then
        Except.error (PromptError.duplicateLanguage l c.name)
      else Except.ok ⟨c.name, dict_insert l i c.lang2item⟩ := rfl

/-- C3 amended: for a bundle that already holds a first variant whose
parameter set avoids the reserved names (an invariant of every bundle built
through the insertion interface), adding a further variant succeeds exactly
when its parameter set equals the first variant's as a set AND the target
language code is still free or overwriting is allowed; whenever the parameter
sets differ the call fails, with the parameter-mismatch error unless the
reserved-name check rejects the variant first. -/
theorem C3_amended (m : MultiLangPromptTemplate) (l0 : String) (first : PromptTemplate)
    (rest : List (String × PromptTemplate)) (pt : PromptTemplate) (lang_code : String)
    (ao : Bool)
    (hst : m.prompts_container.lang2item = (l0, first) :: rest)
    (hinv : FORBIDDEN_PARAM_NAMES ∩ first.get_parameters = ∅) :
    ((∃ m', m.add_prompt_template pt lang_code ao = Except.ok m') ↔
      ((∀ x, x ∈ pt.get_parameters ↔ x ∈ first.get_parameters) ∧
        (ao = true ∨ assoc_get lang_code m.prompts_container.lang2item = none))) ∧
    (¬ (∀ x, x ∈ pt.get_parameters ↔ x ∈ first.get_parameters) →
      (m.add_prompt_template pt lang_code ao = Except.error (PromptError.parameterMismatch m.name) ∨
        m.add_prompt_template pt lang_code ao = Except.error (PromptError.forbiddenParams m.name))) := by
  have hset : (∀ x, x ∈ pt.get_parameters ↔ x ∈ first.get_parameters) ↔
      pt.get_parameters = first.get_parameters := (Finset.ext_iff).symm
  by_cases hfb : FORBIDDEN_PARAM_NAMES ∩ pt.get_parameters = ∅
  · rw [add_prompt_template_cons m l0 first rest pt lang_code ao hst hfb]
    by_cases hpar : pt.get_parameters = first.get_parameters
    · rw [if_neg (by simp [hpar]), add_item_eq]
      cases hao : ao with
      | true =>
        rw [if_neg (by simp)]
        refine ⟨?_, ?_⟩
        · constructor
          · intro _
            exact ⟨hset.mpr hpar, Or.inl rfl⟩
          · intro _
            exact ⟨_, rfl⟩
        · intro hniff
          exact absurd (hset.mpr hpar) hniff
      | false =>
        cases hassoc : assoc_get lang_code m.prompts_container.lang2item with
        | some v =>
          rw [if_pos (by simp)]
          refine ⟨?_, ?_⟩
          · constructor
            · rintro ⟨m', hm'⟩
              simp [Except.map] at hm'
            · rintro ⟨_, hor⟩
              rcases hor with h | h
              · exact Bool.noConfusion h
              · exact Option.noConfusion h
          · intro hniff
            exact absurd (hset.mpr hpar) hniff
        | none =>
          rw [if_neg (by simp)]
          refine ⟨?_, ?_⟩
          · constructor
            · intro _
              exact ⟨hset.mpr hpar, Or.inr rfl⟩
            · intro _
              exact ⟨_, rfl⟩
          · intro hniff
            exact absurd (hset.mpr hpar) hniff
    · rw [if_pos (fun h => hpar h.symm)]
      refine ⟨?_, ?_⟩
      · constructor
        · rintro ⟨m', hm'⟩
          exact Except.noConfusion hm'
        · rintro ⟨hiff, _⟩
          exact absurd (hset.mp hiff) hpar
      · intro _
        exact Or.inl rfl
  · have herr : m.add_prompt_template pt lang_code ao =
        Except.error (PromptError.forbiddenParams m.name) := by
      unfold MultiLangPromptTemplate.add_prompt_template
      rw [if_pos hfb]
    rw [herr]
    refine ⟨?_, ?_⟩
    · constructor
      · rintro ⟨m', hm'⟩
        exact Except.noConfusion hm'
      · rintro ⟨hiff, _⟩
        refine absurd ?_ hfb
        rw [hset.mp hiff]
        exact hinv
    · intro _
      exact Or.inr rfl

/-- Witness for C3 amended: adding the equal-parameter variant under a fresh
language code succeeds. -/
theorem C3_amended_witness :
    ∃ m', C3_m1.add_prompt_template C3_pt2 "fr" false = Except.ok m' := by
  have hp : C3_pt2.get_parameters = C3_pt1.get_parameters := by decide
  exact (C3_amended C3_m1 "en" C3_pt1 [] C3_pt2 "fr" false (by decide) (by decide)).1.mpr
    ⟨fun x => by rw [hp], Or.inr (by decide)⟩

/-! ### C9 -/

theorem collect_methods_mem (pc : PromptCollection) (names : List String) :
    ∀ (methods : List (String × Finset String)),
      collect_methods pc names = Except.ok methods →
      ∀ (n : String) (ps : Finset String), (n, ps) ∈ methods →
        pc.get_prompt_template_parameters n = Except.ok ps := by
  induction names with
  | nil =>
    intro methods h n ps hmem
    simp [collect_methods] at h
    subst h
    simp at hmem
  | cons nm rest ih =>
    intro methods h n ps hmem
    unfold collect_methods at h
    cases hp : pc.get_prompt_template_parameters nm with
    | error e =>
      rw [hp] at h
      exact Except.noConfusion h
    | ok P0 =>
      rw [hp] at h
      cases hr : collect_methods pc rest with
      | error e =>
        rw [hr] at h
        exact Except.noConfusion h
      | ok tail =>
        rw [hr] at h
        have hm : (nm, P0) :: tail = methods := by injection h
        subst hm
        rcases List.mem_cons.mp hmem with heq | hmem'
        · have h1 : n = nm := congrArg Prod.fst heq
          have h2 : ps = P0 := congrArg Prod.snd heq
          subst h1
          subst h2
          exact hp
        · exact ih tail hr n ps hmem'

theorem get_params_fallback_indep
    (t : List (String × MultiLangPromptTemplate)) (l : List (String × MultiLangPromptList))
    (fb fb' : LanguageFallbackMode) (n : String) :
    PromptCollection.get_prompt_template_parameters ⟨t, l, fb⟩ n =
      PromptCollection.get_prompt_template_parameters ⟨t, l, fb'⟩ n := rfl

/-- C9: a generated accessor call is by construction the collection-level
render call with the same name, the factory's configured language code and
the same bindings, and the accessor's keyword-only parameters are exactly the
template's canonical parameters as recorded by the factory's collection. -/
theorem C9_generated_accessor (files : List YamlFile) (fb : LanguageFallbackMode)
    (lang : String) (pcGen : PromptCollection) (f : PromptFactoryBase)
    (methods : List (String × Finset String)) (n : String) (ps : Finset String)
    (args : String → String)
    (hgen : PromptCollection.make files LanguageFallbackMode.exception = Except.ok pcGen)
    (hf : PromptFactoryBase.make files lang fb = Except.ok f)
    (hm : autogenerated_template_methods pcGen = Except.ok methods)
    (hmem : (n, ps) ∈ methods) :
    generated_create_method f n ps args =
      f.prompt_collection.render_prompt_template n f.lang_code
        (fun x => if x ∈ ps then some (args x) else none) ∧
    f.prompt_collection.get_prompt_template_parameters n = Except.ok ps := by
  constructor
  · rfl
  · have hP := collect_methods_mem pcGen pcGen.get_prompt_template_names methods hm n ps hmem
    unfold PromptCollection.make at hgen
    unfold PromptFactoryBase.make PromptCollection.make at hf
    cases hld : CollectionState.load_files ⟨[], []⟩ files with
    | error e =>
      rw [hld] at hgen
      simp [Except.map] at hgen
    | ok st =>
      rw [hld] at hgen hf
      simp only [Except.map] at hgen hf
      have hpc : pcGen =
          ⟨st.multi_lang_prompt_templates, st.multi_lang_prompt_lists,
            LanguageFallbackMode.exception⟩ := by
        injection hgen with h
        exact h.symm
      have hfe : f =
          ⟨lang, ⟨st.multi_lang_prompt_templates, st.multi_lang_prompt_lists, fb⟩⟩ := by
        injection hf with h
        exact h.symm
      rw [hfe]
      rw [hpc] at hP
      exact (get_params_fallback_indep st.multi_lang_prompt_templates
        st.multi_lang_prompt_lists fb LanguageFallbackMode.exception n).trans hP

/-- The one-file directory of the generated-accessor scenario. -/
def C9_file : YamlFile :=
  ⟨"g.yaml", Yaml.map [("prompts", Yaml.map [("greet", Yaml.str "Hello \x7b\x7bname\x7d\x7d")])]⟩

/-- The collection loaded from it. -/
def C9_pc : PromptCollection :=
  ⟨[("greet", ⟨⟨"greet", [("default", PromptTemplate.make "greet" "Hello \x7b\x7bname\x7d\x7d")]⟩⟩)],
    [], LanguageFallbackMode.exception⟩

/-- Witness for C9: the generated `create_greet` accessor applied with the
binding of the name parameter agrees with the direct collection render. -/
theorem C9_witness :
    generated_create_method ⟨"default", C9_pc⟩ "greet" {"name"} (fun _ => "Bob") =
      C9_pc.render_prompt_template "greet" "default"
        (fun x => if x ∈ ({"name"} : Finset String) then some "Bob" else none) := by
  exact (C9_generated_accessor [C9_file] LanguageFallbackMode.exception "default"
    C9_pc ⟨"default", C9_pc⟩ [("greet", {"name"})] "greet" {"name"} (fun _ => "Bob")
    (by decide) (by decide) (by decide) (by decide)).1

/-! ### C10 -/

theorem dropWhile_dropWhile (p : Char → Bool) (l : List Char) :
    (l.dropWhile p).dropWhile p = l.dropWhile p := by
  induction l with
  | nil => rfl
  | cons a t ih =>
    rw [List.dropWhile_cons]
    by_cases h : p a
    · rw [if_pos h]
      exact ih
    · rw [if_neg h, List.dropWhile_cons, if_neg h]

theorem dropWhile_head_false (p : Char → Bool) (l : List Char) (a : Char) (t : List Char)
    (h : l.dropWhile p = a :: t) : p a = false := by
  induction l with
  | nil => exact List.noConfusion h
  | cons b l' ih =>
    rw [List.dropWhile_cons] at h
    by_cases hb : p b
    · rw [if_pos hb] at h
      exact ih h
    · rw [if_neg hb] at h
      injection h with hba _
      rw [← hba]
      simp only [Bool.not_eq_true] at hb
      exact hb

theorem dropWhile_append_single (p : Char → Bool) (a : Char) (pa : p a = false)
    (xs : List Char) : ∃ ys, (xs ++ [a]).dropWhile p = ys ++ [a] := by
  induction xs with
  | nil =>
    refine ⟨[], ?_⟩
    rw [List.nil_append, List.dropWhile_cons, if_neg (by simp [pa])]
  | cons x xs ih =>
    rw [List.cons_append, List.dropWhile_cons]
    by_cases hx : p x
    · rw [if_pos hx]
      exact ih
    · rw [if_neg hx]
      exact ⟨x :: xs, rfl⟩

theorem dropWhile_strip_chars (l : List Char) :
    (strip_chars l).dropWhile is_python_space = strip_chars l := by
  unfold strip_chars
  cases hy : l.dropWhile is_python_space with
  | nil => simp
  | cons a t =>
    have pa : is_python_space a = false := dropWhile_head_false _ _ _ _ hy
    obtain ⟨ys, hw⟩ := dropWhile_append_single is_python_space a pa t.reverse
    rw [List.reverse_cons, hw, List.reverse_append]
    simp only [List.reverse_cons, List.reverse_nil, List.nil_append, List.singleton_append]
    rw [List.dropWhile_cons, if_neg (by simp [pa])]

theorem reverse_strip_chars_dropWhile (l : List Char) :
    (strip_chars l).reverse.dropWhile is_python_space = (strip_chars l).reverse := by
  unfold strip_chars
  rw [List.reverse_reverse]
  exact dropWhile_dropWhile _ _

theorem strip_chars_idem (l : List Char) : strip_chars (strip_chars l) = strip_chars l := by
  calc strip_chars (strip_chars l)
      = (((strip_chars l).dropWhile is_python_space).reverse.dropWhile
          is_python_space).reverse := rfl
    _ = ((strip_chars l).reverse.dropWhile is_python_space).reverse := by
        rw [dropWhile_strip_chars]
    _ = ((strip_chars l).reverse).reverse := by rw [reverse_strip_chars_dropWhile]
    _ = strip_chars l := List.reverse_reverse _

theorem python_strip_idem (s : String) : python_strip (python_strip s) = python_strip s := by
  unfold python_strip
  rw [show (String.mk (strip_chars s.data)).data = strip_chars s.data from rfl]
  rw [strip_chars_idem]

/-- C10: the constructor strips the template string, and stripping is
idempotent, so a template built from a string and one built from the string
with its surrounding whitespace removed render identically under every
binding and declare identical parameter sets. -/
theorem C10_strip_invariance (name s : String) (vars : Bindings) :
    (PromptTemplate.make name s).render vars =
      (PromptTemplate.make name (python_strip s)).render vars ∧
    (PromptTemplate.make name s).get_parameters =
      (PromptTemplate.make name (python_strip s)).get_parameters := by
  have h : PromptTemplate.make name (python_strip s) = PromptTemplate.make name s := by
    unfold PromptTemplate.make
    rw [python_strip_idem]
  rw [h]
  exact ⟨rfl, rfl⟩
